import Mathlib

/-!
Verification development for the langgraph travel planner pipeline
(`src/agents.py`, `src/tools.py`, `src/workflow.py`).

The Python code is shallowly embedded: every stage ("agent node") becomes a
total Lean function over explicit data; the external effects (the structured
LLM call, the two SerpApi search connectors, the free-text augmentation call)
are passed in as oracle arguments of type `Except err α`, matching the
try/except discipline of the source.  Python dictionaries that the code only
observes through `get` are modelled as association lists observed through a
first-match lookup.  The typed records declared in `models.py` (a file of the
repository that is not among the provided sources) are modelled from the
spec where needed; each such definition says so in its doc comment.
-/

namespace TravelPlanner

/-! ## Python values and dictionaries -/

/-- Universe of values stored in the `user_info` dictionary and in the
simplified result dictionaries: strings, integers and `None`.  These are the
only value shapes the verified code paths inspect.  (Numeric ratings are
modelled as integers; no claim depends on fractional values.) -/
inductive Value where
  | str : String → Value
  | int : Int → Value
  | none : Value
deriving DecidableEq, Repr

/-- Python truthiness for the modelled values: `None`, `""` and `0` are
falsy, everything else is truthy. -/
def Value.truthy : Value → Bool
  | .none => false
  | .str s => !(s == "")
  | .int n => !(n == 0)

/-- The `user_info` dictionary, keyed by strings. -/
abbrev UserInfo := List (String × Value)

/-- First-match lookup, the observation through which all dictionary reads
(`d.get(k)`, `d[k]`) are modelled. -/
def uiGet : UserInfo → String → Option Value
  | [], _ => Option.none
  | (k1, v) :: rest, k => if k = k1 then some v else uiGet rest k

/-- Python `d.get(k)` (default `None`). -/
def pyGet (ui : UserInfo) (k : String) : Value :=
  (uiGet ui k).getD Value.none

/-- Python `d.get(k, dflt)`. -/
def pyGetD (ui : UserInfo) (k : String) (dflt : Value) : Value :=
  (uiGet ui k).getD dflt

/-- Python `d[k] = v`: overwrite the value under an existing key in place,
or append a fresh key at the end. -/
def dictSet (d : UserInfo) (k : String) (v : Value) : UserInfo :=
  if (uiGet d k).isSome then
    d.map (fun kv => if kv.1 = k then (k, v) else kv)
  else
    d ++ [(k, v)]

/-- Python `base.update(upd)`: set every key/value pair of `upd` in order. -/
def dictUpdate (base : UserInfo) (upd : List (String × Value)) : UserInfo :=
  upd.foldl (fun d kv => dictSet d kv.1 kv.2) base

theorem uiGet_append_of_none {a : UserInfo} {k : String} (b : UserInfo)
    (h : uiGet a k = Option.none) : uiGet (a ++ b) k = uiGet b k := by
  induction a with
  | nil => rfl
  | cons kv rest ih =>
      rw [uiGet] at h
      by_cases hk : k = kv.1
      · simp [hk] at h
      · simpa [uiGet, hk] using ih (by simpa [hk] using h)

theorem uiGet_map_set_of_isSome {d : UserInfo} {k : String} (v : Value)
    (h : (uiGet d k).isSome) :
    uiGet (d.map (fun kv => if kv.1 = k then (k, v) else kv)) k = some v := by
  induction d with
  | nil => simp [uiGet] at h
  | cons kv rest ih =>
      obtain ⟨k0, v0⟩ := kv
      simp only [List.map_cons]
      by_cases hk : k0 = k
      · rw [show (if (k0, v0).1 = k then (k, v) else (k0, v0)) = (k, v) from if_pos hk]
        simp [uiGet]
      · have hne : ¬ k = k0 := fun he => hk he.symm
        rw [uiGet, if_neg hne] at h
        rw [show (if (k0, v0).1 = k then (k, v) else (k0, v0)) = (k0, v0) from if_neg hk]
        rw [uiGet, if_neg hne]
        exact ih h

theorem uiGet_map_set_other (d : UserInfo) (k k1 : String) (v : Value)
    (h : ¬ k1 = k) :
    uiGet (d.map (fun kv => if kv.1 = k then (k, v) else kv)) k1 = uiGet d k1 := by
  induction d with
  | nil => rfl
  | cons kv rest ih =>
      obtain ⟨k0, v0⟩ := kv
      simp only [List.map_cons]
      by_cases hk : k0 = k
      · rw [show (if (k0, v0).1 = k then (k, v) else (k0, v0)) = (k, v) from if_pos hk]
        have hne : ¬ k1 = k0 := fun he => h (he.trans hk)
        rw [uiGet, if_neg h, uiGet, if_neg hne]
        exact ih
      · rw [show (if (k0, v0).1 = k then (k, v) else (k0, v0)) = (k0, v0) from if_neg hk]
        rw [uiGet, uiGet]
        by_cases hq : k1 = k0
        · rw [if_pos hq, if_pos hq]
        · rw [if_neg hq, if_neg hq]
          exact ih

theorem uiGet_append_single_other (d : UserInfo) (k k1 : String) (v : Value)
    (h : ¬ k1 = k) : uiGet (d ++ [(k, v)]) k1 = uiGet d k1 := by
  induction d with
  | nil => simp [uiGet, h]
  | cons kv rest ih =>
      obtain ⟨k0, v0⟩ := kv
      simp only [List.cons_append]
      rw [uiGet, uiGet]
      by_cases hq : k1 = k0
      · rw [if_pos hq, if_pos hq]
      · rw [if_neg hq, if_neg hq]
        exact ih

/-- Setting a key makes it readable back. -/
theorem uiGet_dictSet_self (d : UserInfo) (k : String) (v : Value) :
    uiGet (dictSet d k v) k = some v := by
  rw [dictSet]
  by_cases h : (uiGet d k).isSome
  · rw [if_pos h]
    exact uiGet_map_set_of_isSome v h
  · rw [if_neg h]
    have hn : uiGet d k = Option.none := by
      cases he : uiGet d k with
      | none => rfl
      | some w => rw [he] at h; simp at h
    rw [uiGet_append_of_none _ hn]
    simp [uiGet]

/-- Setting a key leaves every other key unchanged. -/
theorem uiGet_dictSet_other (d : UserInfo) (k k1 : String) (v : Value)
    (h : ¬ k1 = k) : uiGet (dictSet d k v) k1 = uiGet d k1 := by
  rw [dictSet]
  by_cases hs : (uiGet d k).isSome
  · rw [if_pos hs]
    exact uiGet_map_set_other d k k1 v h
  · rw [if_neg hs]
    exact uiGet_append_single_other d k k1 v h

/-! ## Dates: `datetime.strptime(s, "%Y-%m-%d")` and day differences -/

structure Date where
  year : Nat
  month : Nat
  day : Nat
deriving DecidableEq, Repr

def isLeapYear (y : Nat) : Bool :=
  (y % 4 == 0 && !(y % 100 == 0)) || y % 400 == 0

def daysInMonth (y m : Nat) : Nat :=
  if m = 2 then (if isLeapYear y then 29 else 28)
  else if m = 4 ∨ m = 6 ∨ m = 9 ∨ m = 11 then 30
  else 31

/-- Split a character list on a separator character (like `str.split`). -/
def splitOnChar (sep : Char) : List Char → List (List Char)
  | [] => [[]]
  | c :: rest =>
      if c = sep then [] :: splitOnChar sep rest
      else
        match splitOnChar sep rest with
        | [] => [[c]]
        | g :: gs => (c :: g) :: gs

def allDigits (cs : List Char) : Bool := cs.all Char.isDigit

def digitsVal (cs : List Char) : Nat :=
  cs.foldl (fun a c => a * 10 + (c.toNat - 48)) 0

/-- Embedding of `datetime.strptime(s, "%Y-%m-%d")`: a four-digit year
(`datetime` additionally requires year at least 1), a one- or two-digit month
in 1..12, a one- or two-digit day valid for that month/year.  ASCII digits
only.  Any failure is a `ValueError`, modelled as `none`. -/
def parseYMD (s : String) : Option Date :=
  match splitOnChar '-' s.data with
  | [ys, ms, ds] =>
      if ys.length = 4 ∧ allDigits ys = true
          ∧ 1 ≤ ms.length ∧ ms.length ≤ 2 ∧ allDigits ms = true
          ∧ 1 ≤ ds.length ∧ ds.length ≤ 2 ∧ allDigits ds = true then
        let y := digitsVal ys
        let m := digitsVal ms
        let d := digitsVal ds
        if 1 ≤ y ∧ 1 ≤ m ∧ m ≤ 12 ∧ 1 ≤ d ∧ d ≤ daysInMonth y m then
          some ⟨y, m, d⟩
        else Option.none
      else Option.none
  | _ => Option.none

/-- Day number of a date (days-from-civil algorithm, valid for year ≥ 1);
only differences of this quantity are ever used, mirroring
`(end_date - start_date).days` on two midnight datetimes. -/
def toRataDie (d : Date) : Nat :=
  let y := if d.month ≤ 2 then d.year - 1 else d.year
  let era := y / 400
  let yoe := y % 400
  let mp := (d.month + 9) % 12
  let doy := (153 * mp + 2) / 5 + d.day - 1
  let doe := yoe * 365 + yoe / 4 - yoe / 100 + doy
  era * 146097 + doe

/-- `(b - a).days` for two parsed dates. -/
def dateDiffDays (a b : Date) : Int :=
  (toRataDie b : Int) - (toRataDie a : Int)

/-! ## The extracted trip-parameter record -/

/-- Modelled from the spec: the `ExtractedTripInfo` schema is declared in
`models.py`, which is not among the provided sources.  Fields follow §3
"TripParameters" of the spec: identifiers, the two dates, traveler counts,
the derived day count, budget tier and free-text preferences. -/
structure ExtractedTripInfo where
  source_iata : String
  destination_iata : String
  hotel_city : String
  departure_date : String
  return_date : String
  no_of_adults : Int
  no_of_children : Int
  num_days : Int
  budget : Option String
  activity_preferences : Option String
deriving DecidableEq, Repr

def Value.ofOptStr : Option String → Value
  | some s => .str s
  | Option.none => .none

/-- `extracted_data.model_dump()`: the record as a key/value list. -/
def ExtractedTripInfo.model_dump (e : ExtractedTripInfo) : List (String × Value) :=
  [("source_iata", .str e.source_iata),
   ("destination_iata", .str e.destination_iata),
   ("hotel_city", .str e.hotel_city),
   ("departure_date", .str e.departure_date),
   ("return_date", .str e.return_date),
   ("num_days", .int e.num_days),
   ("no_of_adults", .int e.no_of_adults),
   ("no_of_children", .int e.no_of_children),
   ("budget", Value.ofOptStr e.budget),
   ("activity_preferences", Value.ofOptStr e.activity_preferences)]

/-! ## Info Extraction stage (`info_extractor_agent_node`) -/

/-- Outcome of a structured-output LLM invocation: the two `except` arms of
the source distinguish `pydantic.ValidationError` from any other exception.
The carried string stands for the formatted exception text interpolated into
the note. -/
inductive LLMError where
  | validation : String → LLMError
  | other : String → LLMError
deriving DecidableEq, Repr

def extractorErrorNote : LLMError → String
  | .validation m => "Failed to extract structured information due to Pydantic validation: " ++ m
  | .other m => "An unexpected error occurred during Info Extractor Agent processing: " ++ m

def dateCalcFailedNote : String :=
  "Could not calculate number of days from provided dates. Using LLM's or default."

def extractorSuccessNote : String :=
  "User information successfully extracted and standardized."

structure InfoExtractResult where
  user_info : UserInfo
  notes : List String
deriving DecidableEq, Repr

/-- `info_extractor_agent_node` with the structured-extraction call supplied
as an `Except` oracle.  On success the stage recomputes the day count from
the two extracted date strings and overwrites `num_days` before merging the
dump into the incoming `user_info`; a date-parse failure keeps the model's
value and appends a note.  On any exception the original `user_info` is
returned untouched with one error note. -/
def info_extractor_agent_node (user_info : UserInfo) (notes : List String)
    (oracle : Except LLMError ExtractedTripInfo) : InfoExtractResult :=
  match oracle with
  | .error e =>
      { user_info := user_info, notes := notes ++ [extractorErrorNote e] }
  | .ok extracted =>
      match parseYMD extracted.departure_date, parseYMD extracted.return_date with
      | some start_date, some end_date =>
          let calculated_num_days := dateDiffDays start_date end_date + 1
          let extracted2 := { extracted with num_days := calculated_num_days }
          { user_info := dictUpdate user_info extracted2.model_dump,
            notes := notes ++ [extractorSuccessNote] }
      | _, _ =>
          { user_info := dictUpdate user_info extracted.model_dump,
            notes := notes ++ [dateCalcFailedNote, extractorSuccessNote] }

/-- The `num_days` entry of a merged model dump always reads back as the
dump's `num_days` field, whatever the original dictionary held. -/
theorem uiGet_dictUpdate_num_days (ui : UserInfo) (e : ExtractedTripInfo) :
    uiGet (dictUpdate ui e.model_dump) "num_days" = some (.int e.num_days) := by
  simp only [dictUpdate, ExtractedTripInfo.model_dump, List.foldl]
  rw [uiGet_dictSet_other, uiGet_dictSet_other, uiGet_dictSet_other,
      uiGet_dictSet_other, uiGet_dictSet_self]
  all_goals decide

/-- Claim C1: for every pair of extracted departure/return dates that parse in
YYYY-MM-DD format, the Info Extraction stage sets `num_days` to
`(return_date - departure_date).days + 1`, overwriting any model-provided day
count (the conclusion holds for every `ex.num_days`); if date parsing fails,
the model's value is kept and the date-calculation note is appended instead
of aborting. -/
theorem info_extractor_num_days_authoritative (ui : UserInfo) (notes : List String)
    (ex : ExtractedTripInfo) :
    (∀ d1 d2, parseYMD ex.departure_date = some d1 → parseYMD ex.return_date = some d2 →
      uiGet (info_extractor_agent_node ui notes (.ok ex)).user_info "num_days"
        = some (.int (dateDiffDays d1 d2 + 1))) ∧
    ((parseYMD ex.departure_date = Option.none ∨ parseYMD ex.return_date = Option.none) →
      uiGet (info_extractor_agent_node ui notes (.ok ex)).user_info "num_days"
        = some (.int ex.num_days) ∧
      dateCalcFailedNote ∈ (info_extractor_agent_node ui notes (.ok ex)).notes) := by
  constructor
  · intro d1 d2 h1 h2
    simp only [info_extractor_agent_node, h1, h2]
    exact uiGet_dictUpdate_num_days ui _
  · intro h
    cases h1 : parseYMD ex.departure_date with
    | none =>
        simp only [info_extractor_agent_node, h1]
        cases h2 : parseYMD ex.return_date <;>
          exact ⟨uiGet_dictUpdate_num_days ui ex, by simp⟩
    | some d1 =>
        cases h2 : parseYMD ex.return_date with
        | none =>
            simp only [info_extractor_agent_node, h1, h2]
            exact ⟨uiGet_dictUpdate_num_days ui ex, by simp⟩
        | some d2 =>
            rcases h with h | h
            · rw [h] at h1
              exact Option.noConfusion h1
            · rw [h] at h2
              exact Option.noConfusion h2

def exExtractedOk : ExtractedTripInfo :=
  { source_iata := "DXB", destination_iata := "SYD", hotel_city := "Sydney",
    departure_date := "2025-06-01", return_date := "2025-06-06",
    no_of_adults := 2, no_of_children := 0, num_days := 99,
    budget := some "standard", activity_preferences := Option.none }

theorem info_extractor_num_days_authoritative_witness :
    uiGet (info_extractor_agent_node [] [] (.ok exExtractedOk)).user_info "num_days"
      = some (.int 6) := by
  have h := (info_extractor_num_days_authoritative [] [] exExtractedOk).1
    ⟨2025, 6, 1⟩ ⟨2025, 6, 6⟩ (by decide) (by decide)
  rw [show (dateDiffDays ⟨2025, 6, 1⟩ ⟨2025, 6, 6⟩ + 1 : Int) = 6 from by decide] at h
  exact h

/-- Claim C2: if the structured extraction raises (validation error or any
other exception), the Info Extraction stage returns the original `user_info`
mapping unchanged together with the prior notes extended by exactly one
error note; the node is a total function, so the exception never
propagates. -/
theorem info_extractor_exception_preserves_input (ui : UserInfo)
    (notes : List String) (e : LLMError) :
    (info_extractor_agent_node ui notes (.error e)).user_info = ui ∧
    (info_extractor_agent_node ui notes (.error e)).notes
      = notes ++ [extractorErrorNote e] :=
  ⟨rfl, rfl⟩

/-! ## String joining and substring containment -/

/-- Python `", ".join(l)`. -/
def joinComma : List String → String
  | [] => ""
  | [s] => s
  | s :: rest => s ++ ", " ++ joinComma rest

/-- Does `needle` match at the head of `hay`? -/
def matchesAt : List Char → List Char → Bool
  | [], _ => true
  | _ :: _, [] => false
  | n :: ns, h :: hs => n == h && matchesAt ns hs

/-- Substring containment on character lists. -/
def containsSub (needle : List Char) : List Char → Bool
  | [] => needle.isEmpty
  | h :: hs => matchesAt needle (h :: hs) || containsSub needle hs

theorem matchesAt_append_self (needle tail : List Char) :
    matchesAt needle (needle ++ tail) = true := by
  induction needle with
  | nil => rfl
  | cons c cs ih => simp [matchesAt, ih]

theorem matchesAt_extend {needle hay : List Char} (tail : List Char)
    (h : matchesAt needle hay = true) : matchesAt needle (hay ++ tail) = true := by
  induction needle generalizing hay with
  | nil => rfl
  | cons c cs ih =>
      cases hay with
      | nil => simp [matchesAt] at h
      | cons x xs =>
          simp only [matchesAt, Bool.and_eq_true, beq_iff_eq] at h
          simp [matchesAt, h.1, ih h.2]

theorem containsSub_of_head (needle tail : List Char) :
    containsSub needle (needle ++ tail) = true := by
  cases needle with
  | nil =>
      cases tail with
      | nil => rfl
      | cons x xs => simp [containsSub, matchesAt]
  | cons c cs =>
      simp only [List.cons_append, containsSub, Bool.or_eq_true]
      exact Or.inl (matchesAt_append_self (c :: cs) tail)

theorem containsSub_append_left {needle hay : List Char} (pre : List Char)
    (h : containsSub needle hay = true) :
    containsSub needle (pre ++ hay) = true := by
  induction pre with
  | nil => exact h
  | cons c cs ih => simp [containsSub, ih]

theorem containsSub_append_right {needle hay : List Char} (tail : List Char)
    (h : containsSub needle hay = true) :
    containsSub needle (hay ++ tail) = true := by
  induction hay with
  | nil =>
      simp only [containsSub, List.isEmpty_iff] at h
      subst h
      exact containsSub_of_head [] tail
  | cons x xs ih =>
      simp only [containsSub, Bool.or_eq_true] at h
      rcases h with h | h
      · simp only [List.cons_append, containsSub, Bool.or_eq_true]
        exact Or.inl (matchesAt_extend tail h)
      · simp only [List.cons_append, containsSub, Bool.or_eq_true]
        exact Or.inr (ih h)

theorem strData_append (a b : String) : (a ++ b).data = a.data ++ b.data := rfl

/-- A member of a list of field names occurs as a substring of their
comma-join. -/
theorem containsSub_joinComma {f : String} {l : List String} (h : f ∈ l) :
    containsSub f.data (joinComma l).data = true := by
  induction l with
  | nil => cases h
  | cons s rest ih =>
      cases rest with
      | nil =>
          rcases List.mem_singleton.mp h with rfl
          simpa using containsSub_of_head f.data []
      | cons s2 rest2 =>
          rcases List.mem_cons.mp h with rfl | h2
          · rw [show joinComma (f :: s2 :: rest2) = f ++ ", " ++ joinComma (s2 :: rest2) from rfl]
            rw [strData_append, strData_append, List.append_assoc]
            exact containsSub_append_right _ (by simpa using containsSub_of_head f.data [])
          · rw [show joinComma (s :: s2 :: rest2) = s ++ ", " ++ joinComma (s2 :: rest2) from rfl]
            rw [strData_append]
            exact containsSub_append_left _ (ih h2)

/-! ## Flight stage (`flight_agent_node`) -/

/-- One simplified flight dictionary as returned by the flight connector;
the connector always emits all six keys, so the node's defensive `get`
defaults for absent keys cannot fire on its output. -/
structure FlightDict where
  airline : String
  departure_time : String
  arrival_time : String
  departure_airport : String
  arrival_airport : String
  price : String
deriving DecidableEq, Repr

/-- Modelled from the spec: the `Flight` pydantic model is declared in
`models.py`, which is not among the provided sources; fields follow §3
"FlightOption". -/
structure Flight where
  airline : String
  departure_time : String
  arrival_time : String
  departure_airport : String
  arrival_airport : String
  price : String
deriving DecidableEq, Repr

/-- `Flight(...)` built inside `flight_agent_node` from a connector
dictionary (all keys present, see `FlightDict`). -/
def mkFlight (fd : FlightDict) : Flight :=
  { airline := fd.airline, departure_time := fd.departure_time,
    arrival_time := fd.arrival_time, departure_airport := fd.departure_airport,
    arrival_airport := fd.arrival_airport, price := fd.price }

/-- The dictionary returned by the `fetch_flights` connector. -/
structure FlightToolOutput where
  source : String
  destination : String
  flights : List FlightDict
  note : Option String
deriving DecidableEq, Repr

/-- Arguments of the flight connector invocation. -/
structure FlightCall where
  source : Value
  destination : Value
  departure_date : Value
  return_date : Value
deriving DecidableEq, Repr

/-- The `flight_results` entry written into the pipeline state. -/
structure FlightResultsState where
  flights : List Flight
  note : String
deriving DecidableEq, Repr

structure FlightNodeResult where
  flight_results : FlightResultsState
  notes : List String
deriving DecidableEq, Repr

def flightRequiredFields : List String :=
  ["source_iata", "destination_iata", "departure_date", "return_date"]

/-- `if tool_output.get("note"): current_notes.append(...)`. -/
def appendIfTruthyNote (notes : List String) (note : Option String) : List String :=
  match note with
  | some n => if n = "" then notes else notes ++ [n]
  | Option.none => notes

/-- `flight_agent_node` with the connector invocation supplied as an
`Except` oracle (its `error` arm stands for any exception escaping
`all_tools[0].invoke`, caught by the node's outer `except`). -/
def flight_agent_node (ui : UserInfo) (notes : List String)
    (tool : FlightCall → Except String FlightToolOutput) : FlightNodeResult :=
  let source_iata := pyGet ui "source_iata"
  let destination_iata := pyGet ui "destination_iata"
  let departure_date := pyGet ui "departure_date"
  let return_date := pyGet ui "return_date"
  if source_iata.truthy && destination_iata.truthy
      && departure_date.truthy && return_date.truthy then
    match tool { source := source_iata, destination := destination_iata,
                 departure_date := departure_date, return_date := return_date } with
    | .ok out =>
        { flight_results :=
            { flights := out.flights.map mkFlight,
              note := out.note.getD "Flight search completed." },
          notes := appendIfTruthyNote notes out.note }
    | .error e =>
        let msg := "Error during Flight Agent processing: " ++ e
        { flight_results := { flights := [], note := msg }, notes := notes ++ [msg] }
  else
    let missing := flightRequiredFields.filter (fun f => !(pyGet ui f).truthy)
    let msg := "Error during Flight Agent processing: Missing required flight parameters from user_info: "
        ++ joinComma missing
    { flight_results := { flights := [], note := msg }, notes := notes ++ [msg] }

/-- Claim C3: if any of the four required fields is absent or falsy in
`user_info`, the Flight stage returns `flight_results` with an empty flights
list, and its note names every missing field; the node is total, so nothing
is raised. -/
theorem flight_agent_missing_fields (ui : UserInfo) (notes : List String)
    (tool : FlightCall → Except String FlightToolOutput)
    (h : ((pyGet ui "source_iata").truthy && (pyGet ui "destination_iata").truthy
        && (pyGet ui "departure_date").truthy && (pyGet ui "return_date").truthy) = false) :
    (flight_agent_node ui notes tool).flight_results.flights = [] ∧
    ∀ f ∈ flightRequiredFields, (pyGet ui f).truthy = false →
      containsSub f.data (flight_agent_node ui notes tool).flight_results.note.data
        = true := by
  constructor
  · rw [flight_agent_node]
    simp [h]
  · intro f hf hft
    rw [flight_agent_node]
    simp only [h, Bool.false_eq_true, if_false]
    rw [strData_append]
    exact containsSub_append_left _
      (containsSub_joinComma (List.mem_filter.mpr ⟨hf, by rw [hft]; rfl⟩))

def exFlightUI : UserInfo :=
  [("destination_iata", .str "SYD"), ("departure_date", .str "2025-06-01")]

def exFlightTool : FlightCall → Except String FlightToolOutput :=
  fun _ => .error "unused"

theorem flight_agent_missing_fields_witness :
    (flight_agent_node exFlightUI [] exFlightTool).flight_results.flights = [] ∧
    containsSub "source_iata".data
      (flight_agent_node exFlightUI [] exFlightTool).flight_results.note.data = true ∧
    containsSub "return_date".data
      (flight_agent_node exFlightUI [] exFlightTool).flight_results.note.data = true := by
  have h := flight_agent_missing_fields exFlightUI [] exFlightTool (by decide)
  exact ⟨h.1, h.2 "source_iata" (by decide) (by decide),
    h.2 "return_date" (by decide) (by decide)⟩

/-! ## Hotel stage (`hotel_agent_node`) and the hotel connector -/

/-- One simplified hotel dictionary as built by the `hotel_search`
connector: `hotel_name` may be `None` (`result.get("name")`),
`price_per_night` and `rating` are Python-`or` combinations that may be
`None`, amenities is whatever list the search returned. -/
structure HotelDict where
  hotel_name : Option String
  price_per_night : Value
  rating : Value
  amenities : List String
deriving DecidableEq, Repr

/-- The dictionary returned by the `hotel_search` connector; the `place` key
is absent from the error-path dictionary built inside `hotel_agent_node`,
hence the `Option`. -/
structure HotelToolOutput where
  place : Option String
  hotels : List HotelDict
  note : Option String
deriving DecidableEq, Repr

/-- Arguments of the hotel connector invocation. -/
structure HotelCall where
  place : Value
  check_in_date : Value
  check_out_date : Value
  number_of_adults : Value
  budget : Value
deriving DecidableEq, Repr

structure HotelNodeResult where
  hotel_results : HotelToolOutput
  notes : List String
deriving DecidableEq, Repr

/-- The field names listed in the node's missing-parameter comprehension. -/
def hotelRequiredFields : List String :=
  ["hotel_city", "departure_date", "return_date", "no_of_adults"]

/-- `hotel_agent_node` with the connector invocation supplied as an `Except`
oracle.  Note `number_of_adults = user_info.get('no_of_adults', 1)`: an
absent adult count defaults to 1 and therefore passes the `all(...)` check. -/
def hotel_agent_node (ui : UserInfo) (notes : List String)
    (tool : HotelCall → Except String HotelToolOutput) : HotelNodeResult :=
  let hotel_city := pyGet ui "hotel_city"
  let check_in_date := pyGet ui "departure_date"
  let check_out_date := pyGet ui "return_date"
  let number_of_adults := pyGetD ui "no_of_adults" (.int 1)
  let budget := pyGet ui "budget"
  if hotel_city.truthy && check_in_date.truthy
      && check_out_date.truthy && number_of_adults.truthy then
    match tool { place := hotel_city, check_in_date := check_in_date,
                 check_out_date := check_out_date,
                 number_of_adults := number_of_adults, budget := budget } with
    | .ok out =>
        { hotel_results := out, notes := appendIfTruthyNote notes out.note }
    | .error e =>
        let msg := "Hotel search failed: " ++ e
        { hotel_results := { place := Option.none, hotels := [], note := some msg },
          notes := notes ++ [msg] }
  else
    let missing := hotelRequiredFields.filter (fun f => !(pyGet ui f).truthy)
    let msg := "Hotel search failed: Missing required hotel parameters from user_info: "
        ++ joinComma missing
    { hotel_results := { place := Option.none, hotels := [], note := some msg },
      notes := notes ++ [msg] }

/-- A `user_info` with hotel city and both dates present but no
`no_of_adults` key at all. -/
def exHotelUI : UserInfo :=
  [("hotel_city", .str "Sydney"), ("departure_date", .str "2025-06-01"),
   ("return_date", .str "2025-06-06")]

def exHotelDict : HotelDict :=
  { hotel_name := some "The Rocks Inn", price_per_night := .str "$150",
    rating := .int 4, amenities := ["Wi-Fi"] }

/-- A connector oracle standing for a search that finds one hotel. -/
def exHotelTool : HotelCall → Except String HotelToolOutput :=
  fun _ => .ok { place := some "Sydney", hotels := [exHotelDict], note := Option.none }

/-- Counterexample to claim C4 as stated: with `hotel_city`,
`departure_date` and `return_date` present but the adult count missing from
`user_info`, the Hotel stage does **not** return an empty-hotels result with
a missing-field note — `no_of_adults` defaults to 1, the search is performed
and its (non-empty) result is returned. -/
theorem hotel_agent_missing_adults_counterexample :
    (hotel_agent_node exHotelUI [] exHotelTool).hotel_results.hotels = [exHotelDict]
    ∧ (hotel_agent_node exHotelUI [] exHotelTool).hotel_results.hotels ≠ [] := by
  constructor
  · rfl
  · decide

/-- Claim C4 (amended): if the hotel city, either date, or a
present-but-falsy adult count makes the `all(...)` precondition fail (a
missing adult count alone does not, since it defaults to 1), the Hotel stage
returns `hotel_results` with an empty hotels list and a note naming every
field among the four that reads back falsy from `user_info`. -/
theorem hotel_agent_missing_fields (ui : UserInfo) (notes : List String)
    (tool : HotelCall → Except String HotelToolOutput)
    (h : ((pyGet ui "hotel_city").truthy && (pyGet ui "departure_date").truthy
        && (pyGet ui "return_date").truthy
        && (pyGetD ui "no_of_adults" (.int 1)).truthy) = false) :
    (hotel_agent_node ui notes tool).hotel_results.hotels = [] ∧
    ∀ f ∈ hotelRequiredFields, (pyGet ui f).truthy = false →
      containsSub f.data
        (((hotel_agent_node ui notes tool).hotel_results.note).getD "").data = true := by
  constructor
  · rw [hotel_agent_node]
    simp [h]
  · intro f hf hft
    rw [hotel_agent_node]
    simp only [h, Bool.false_eq_true, if_false, Option.getD_some]
    rw [strData_append]
    exact containsSub_append_left _
      (containsSub_joinComma (List.mem_filter.mpr ⟨hf, by rw [hft]; rfl⟩))

/-- A `user_info` whose adult count is present but zero (falsy) and whose
hotel city is absent. -/
def exHotelUI2 : UserInfo :=
  [("departure_date", .str "2025-06-01"), ("return_date", .str "2025-06-06"),
   ("no_of_adults", .int 0)]

theorem hotel_agent_missing_fields_witness :
    (hotel_agent_node exHotelUI2 [] exHotelTool).hotel_results.hotels = [] ∧
    containsSub "hotel_city".data
      (((hotel_agent_node exHotelUI2 [] exHotelTool).hotel_results.note).getD "").data
        = true ∧
    containsSub "no_of_adults".data
      (((hotel_agent_node exHotelUI2 [] exHotelTool).hotel_results.note).getD "").data
        = true := by
  have h := hotel_agent_missing_fields exHotelUI2 [] exHotelTool (by decide)
  exact ⟨h.1, h.2 "hotel_city" (by decide) (by decide),
    h.2 "no_of_adults" (by decide) (by decide)⟩

/-! ## Hotel Search Connector (`hotel_search` in `tools.py`) -/

/-- A raw hotel entry from the external search ("properties" or "ads"):
the fields the connector reads, each possibly missing (`Value.none` for the
`or`-combined ones). -/
structure SerpHotelRaw where
  name : Option String
  rate_per_night_lowest : Value
  price : Value
  overall_rating : Value
  rating : Value
  amenities : List String
deriving DecidableEq, Repr

structure HotelSerpResults where
  properties : List SerpHotelRaw
  ads : List SerpHotelRaw
deriving DecidableEq, Repr

/-- Python `a or b` on values. -/
def pyOr (a b : Value) : Value := if a.truthy then a else b

structure HotelSearchParams where
  q : String
  check_in_date : String
  check_out_date : String
  adults : Int
  min_price : Option Nat
  max_price : Option Nat
deriving DecidableEq, Repr

def budgetRange : String → Option (Nat × Nat)
  | "economy" => some (50, 175)
  | "standard" => some (176, 300)
  | "luxury" => some (301, 10000)
  | _ => Option.none

def lowerString (s : String) : String := ⟨s.data.map Char.toLower⟩

/-- The request parameters, including the optional budget-tier price band
(an unrecognized or empty budget leaves the band unset). -/
def hotelSearchParams (place check_in check_out : String) (adults : Int)
    (budget : Option String) : HotelSearchParams :=
  let base : HotelSearchParams :=
    { q := place, check_in_date := check_in, check_out_date := check_out,
      adults := adults, min_price := Option.none, max_price := Option.none }
  match budget with
  | Option.none => base
  | some b =>
      if b = "" then base
      else
        match budgetRange (lowerString b) with
        | some lohi => { base with min_price := some lohi.1, max_price := some lohi.2 }
        | Option.none => base

/-- The per-entry simplification of a raw hotel into the connector's
dictionary. -/
def simplifyHotel (r : SerpHotelRaw) : HotelDict :=
  { hotel_name := r.name,
    price_per_night := pyOr r.rate_per_night_lowest r.price,
    rating := pyOr r.overall_rating r.rating,
    amenities := r.amenities }

/-- The `for i, result in enumerate(...)` loop with its `if i >= 2: break`. -/
def simplifyHotelLoop : Nat → List SerpHotelRaw → List HotelDict
  | _, [] => []
  | i, r :: rest =>
      if 2 ≤ i then [] else simplifyHotel r :: simplifyHotelLoop (i + 1) rest

/-- `hotel_search` with the SerpApi call supplied as an `Except` oracle. -/
def hotel_search (place check_in_date check_out_date : String)
    (number_of_adults : Int) (budget : Option String)
    (api : HotelSearchParams → Except String HotelSerpResults) : HotelToolOutput :=
  let params := hotelSearchParams place check_in_date check_out_date
      number_of_adults budget
  match api params with
  | .error e =>
      { place := some place, hotels := [],
        note := some ("Error fetching hotels: " ++ e) }
  | .ok results =>
      let hotels_data_source :=
        if results.properties.isEmpty then results.ads else results.properties
      let simplified_hotels := simplifyHotelLoop 0 hotels_data_source
      if simplified_hotels.isEmpty then
        { place := some place, hotels := [], note := some "No hotel options found." }
      else
        { place := some place, hotels := simplified_hotels, note := Option.none }

theorem simplifyHotelLoop_length (l : List SerpHotelRaw) :
    ∀ i, (simplifyHotelLoop i l).length ≤ 2 - i := by
  induction l with
  | nil => intro i; simp [simplifyHotelLoop]
  | cons r rest ih =>
      intro i
      rw [simplifyHotelLoop]
      by_cases h : 2 ≤ i
      · simp [h]
      · rw [if_neg h]
        have := ih (i + 1)
        simp only [List.length_cons]
        omega

/-- Claim C5: whatever the external search returns (and whether the request
succeeds or raises), the hotel connector's result list holds at most two
hotels. -/
theorem hotel_search_cap_two (place check_in_date check_out_date : String)
    (number_of_adults : Int) (budget : Option String)
    (api : HotelSearchParams → Except String HotelSerpResults) :
    (hotel_search place check_in_date check_out_date number_of_adults budget
      api).hotels.length ≤ 2 := by
  rw [hotel_search]
  cases api (hotelSearchParams place check_in_date check_out_date
      number_of_adults budget) with
  | error e => simp
  | ok results =>
      simp only []
      set src := if results.properties.isEmpty then results.ads else results.properties
      by_cases h : (simplifyHotelLoop 0 src).isEmpty
      · simp [h]
      · simpa [h] using simplifyHotelLoop_length src 0

/-! ## Flight Search Connector (`fetch_flights` in `tools.py`) -/

structure SerpAirportInfo where
  time : Option String
  name : Option String
deriving DecidableEq, Repr

/-- A raw flight leg inside the first best-flight option. -/
structure SerpFlightLeg where
  airline : Option String
  departure_airport : Option SerpAirportInfo
  arrival_airport : Option SerpAirportInfo
deriving DecidableEq, Repr

structure BestFlightOption where
  flights : List SerpFlightLeg
  price : Option Value
deriving DecidableEq, Repr

structure FlightSerpResults where
  best_flights : List BestFlightOption
deriving DecidableEq, Repr

structure FlightSearchParams where
  departure_id : String
  arrival_id : String
  outbound_date : String
  return_date : String
deriving DecidableEq, Repr

/-- Python `str(v)` on the modelled values. -/
def pyStr : Value → String
  | .str s => s
  | .int n => toString n
  | .none => "None"

/-- `str(best_flights[0].get("price", "N/A"))`. -/
def firstOptionPriceStr (opt : BestFlightOption) : String :=
  pyStr (opt.price.getD (.str "N/A"))

/-- The per-leg simplified dictionary; every leg carries the overall price
string of the enclosing (first) option. -/
def legSimplify (priceStr : String) (leg : SerpFlightLeg) : FlightDict :=
  { airline := leg.airline.getD "Unknown",
    departure_time := (leg.departure_airport.bind SerpAirportInfo.time).getD "N/A",
    arrival_time := (leg.arrival_airport.bind SerpAirportInfo.time).getD "N/A",
    departure_airport := (leg.departure_airport.bind SerpAirportInfo.name).getD "Unknown",
    arrival_airport := (leg.arrival_airport.bind SerpAirportInfo.name).getD "Unknown",
    price := priceStr }

def flightSearchParamsOf (source destination departure_date return_date : String) :
    FlightSearchParams :=
  { departure_id := source, arrival_id := destination,
    outbound_date := departure_date, return_date := return_date }

/-- `fetch_flights` with the SerpApi call supplied as an `Except` oracle. -/
def fetch_flights (source destination departure_date return_date : String)
    (api : FlightSearchParams → Except String FlightSerpResults) : FlightToolOutput :=
  match api (flightSearchParamsOf source destination departure_date return_date) with
  | .error e =>
      { source := source, destination := destination, flights := [],
        note := some ("Error fetching flights: " ++ e) }
  | .ok results =>
      match results.best_flights with
      | [] =>
          { source := source, destination := destination, flights := [],
            note := some "No flight options found." }
      | first :: _ =>
          if first.flights.isEmpty then
            { source := source, destination := destination, flights := [],
              note := some "No detailed flight legs found within the best flight option." }
          else
            { source := source, destination := destination,
              flights := first.flights.map (legSimplify (firstOptionPriceStr first)),
              note := Option.none }

/-- Claim C10: on a non-error response with a non-empty best-flights list,
the returned flights are exactly the simplified legs of the first option
(later options never contribute), and every returned flight's price is the
string of that first option's overall price. -/
theorem fetch_flights_uses_first_option (source destination departure_date
    return_date : String)
    (api : FlightSearchParams → Except String FlightSerpResults)
    (results : FlightSerpResults) (first : BestFlightOption)
    (rest : List BestFlightOption)
    (hapi : api (flightSearchParamsOf source destination departure_date return_date)
        = .ok results)
    (hbest : results.best_flights = first :: rest) :
    (fetch_flights source destination departure_date return_date api).flights
      = first.flights.map (legSimplify (firstOptionPriceStr first)) ∧
    ∀ fd ∈ (fetch_flights source destination departure_date return_date api).flights,
      fd.price = firstOptionPriceStr first := by
  have hflights : (fetch_flights source destination departure_date return_date
      api).flights = first.flights.map (legSimplify (firstOptionPriceStr first)) := by
    rw [fetch_flights, hapi]
    by_cases h : first.flights.isEmpty
    · rw [List.isEmpty_iff] at h
      simp [hbest, h]
    · simp [hbest, h]
  refine ⟨hflights, ?_⟩
  intro fd hfd
  rw [hflights] at hfd
  rcases List.mem_map.mp hfd with ⟨leg, _, rfl⟩
  rfl

def exLeg1 : SerpFlightLeg :=
  { airline := some "Qantas",
    departure_airport := some { time := some "2025-06-01 08:00", name := some "Dubai Intl" },
    arrival_airport := some { time := some "2025-06-02 06:00", name := some "Sydney Intl" } }

def exLeg2 : SerpFlightLeg :=
  { airline := Option.none, departure_airport := Option.none,
    arrival_airport := Option.none }

def exBest1 : BestFlightOption := { flights := [exLeg1, exLeg2], price := some (.int 950) }

def exBest2 : BestFlightOption := { flights := [exLeg2], price := some (.int 99) }

def exFlightSerp : FlightSerpResults := { best_flights := [exBest1, exBest2] }

def exFlightApi : FlightSearchParams → Except String FlightSerpResults :=
  fun _ => .ok exFlightSerp

theorem fetch_flights_uses_first_option_witness :
    (fetch_flights "DXB" "SYD" "2025-06-01" "2025-06-06" exFlightApi).flights
      = [legSimplify "950" exLeg1, legSimplify "950" exLeg2] ∧
    ∀ fd ∈ (fetch_flights "DXB" "SYD" "2025-06-01" "2025-06-06" exFlightApi).flights,
      fd.price = "950" := by
  have h := fetch_flights_uses_first_option "DXB" "SYD" "2025-06-01" "2025-06-06"
    exFlightApi exFlightSerp exBest1 [exBest2] rfl rfl
  have hp : firstOptionPriceStr exBest1 = "950" := rfl
  rw [hp] at h
  exact h

/-! ## Destination stage (`destination_agent_node`) -/

/-- Modelled from the spec: the activity record of the
`DestinationInformation` schema in `models.py` (§3 "ActivityDetail"). -/
structure ActivityDetail where
  activity_name : String
  description : String
  ticket_price : String
  best_time_to_visit : String
deriving DecidableEq, Repr

/-- Modelled from the spec: method/description pair (§3 "TravelOption"). -/
structure TravelOption where
  method : String
  description : String
deriving DecidableEq, Repr

/-- Modelled from the spec: title/notes pair (§3 "ResearchDetail"). -/
structure ResearchDetail where
  title : String
  notes : String
deriving DecidableEq, Repr

/-- Modelled from the spec: the `DestinationInformation` schema declared in
`models.py`, which is not among the provided sources (§4.5). -/
structure DestinationInformation where
  activities : List ActivityDetail
  local_travel_options : List TravelOption
  destination_research : List ResearchDetail
deriving DecidableEq, Repr

def destinationErrorNote : LLMError → String
  | .validation m =>
      "Failed to generate structured destination information due to Pydantic validation: " ++ m
  | .other m =>
      "An unexpected error occurred during Destination Agent processing: " ++ m

structure DestinationNodeResult where
  destination_info_results : Option DestinationInformation
  notes : List String
deriving DecidableEq, Repr

/-- `destination_agent_node` with the structured generation supplied as an
`Except` oracle.  On success the returned delta has no notes key, so the
state's notes are unchanged.  On failure the source first appends the error
note in place to `current_notes` — which aliases the very list
`state["notes"]` refers to — and then returns `state.get("notes", []) +
[error_msg]`, so the error note ends up in the returned list twice. -/
def destination_agent_node (notes : List String)
    (oracle : Except LLMError DestinationInformation) : DestinationNodeResult :=
  match oracle with
  | .ok info => { destination_info_results := some info, notes := notes }
  | .error e =>
      { destination_info_results := Option.none,
        notes := (notes ++ [destinationErrorNote e]) ++ [destinationErrorNote e] }

/-! ## Itinerary Compiler stage (`itinerary_agent_node`) -/

/-- Modelled from the spec: the `Hotel` pydantic model declared in
`models.py` (§3 "HotelOption"): name, `$`-normalized nightly price string,
optional numeric rating (kept as a `Value`), amenities, and the three
augmentation fields, empty until augmented. -/
structure Hotel where
  hotel_name : String
  price_per_night : String
  rating : Value
  amenities : List String
  address : String
  description : String
  perks : String
deriving DecidableEq, Repr

/-- `if isinstance(price_value, (int, float)): price_value = f"$..."`. -/
def normalizePrice : Value → Value
  | .int n => .str ("$" ++ toString n)
  | v => v

/-- Stands for the formatted `pydantic.ValidationError` text of the
note appended when a hotel dictionary fails typed construction. -/
def hotelPrepErrorNote : String :=
  "Error preparing hotel data for augmentation: invalid field value."

/-- `Hotel(...)` construction from one connector dictionary: amenities
truncated to five, empty augmentation fields; a `None` name or price does
not satisfy the `str`-typed fields, which is the `ValidationError` arm. -/
def buildHotelOne (hd : HotelDict) : Except String Hotel :=
  match hd.hotel_name, normalizePrice hd.price_per_night with
  | some nm, .str p =>
      .ok { hotel_name := nm, price_per_night := p, rating := hd.rating,
            amenities := hd.amenities.take 5,
            address := "", description := "", perks := "" }
  | _, _ => .error hotelPrepErrorNote

/-- The hotel-preparation loop: built hotels in order, plus the notes of the
entries dropped by validation. -/
def buildHotelUpdated : List HotelDict → List Hotel × List String
  | [] => ([], [])
  | hd :: rest =>
      let tail := buildHotelUpdated rest
      match buildHotelOne hd with
      | .ok h => (h :: tail.1, tail.2)
      | .error e => (tail.1, e :: tail.2)

/-- Python `str.strip()` (whitespace from both ends). -/
def stripChars (cs : List Char) : List Char :=
  ((cs.dropWhile Char.isWhitespace).reverse.dropWhile Char.isWhitespace).reverse

def underscoreSpace (c : Char) : Char := if c = ' ' then '_' else c

/-- `line.split(':', 1)` when the line contains a colon. -/
def splitFirstColon : List Char → Option (List Char × List Char)
  | [] => Option.none
  | c :: rest =>
      if c = ':' then some ([], rest)
      else
        match splitFirstColon rest with
        | some kv => some (c :: kv.1, kv.2)
        | Option.none => Option.none

/-- One line of the augmentation reply: label-less lines are ignored; the
label is stripped, lower-cased and space-underscored, the value stripped. -/
def parseAugLine (line : List Char) : Option (String × String) :=
  match splitFirstColon line with
  | some kv =>
      some (⟨((stripChars kv.1).map Char.toLower).map underscoreSpace⟩,
            ⟨stripChars kv.2⟩)
  | Option.none => Option.none

def parseAugDetails (s : String) : List (String × String) :=
  (splitOnChar '\n' s.data).filterMap parseAugLine

/-- Lookup in the parsed details with dict assignment semantics: a later
line overwrites an earlier one with the same label. -/
def detGet (det : List (String × String)) (k : String) : Option String :=
  match det with
  | [] => Option.none
  | kv :: rest =>
      match detGet rest k with
      | some v => some v
      | Option.none => if kv.1 = k then some kv.2 else Option.none

/-- The input of one free-text augmentation call. -/
structure AugmentQuery where
  hotel_name : String
  hotel_city : Value
  hotel_rating : String
  hotel_amenities : String
deriving DecidableEq, Repr

def augmentQuery (cityCtx : Value) (h : Hotel) : AugmentQuery :=
  { hotel_name := h.hotel_name,
    hotel_city := cityCtx,
    hotel_rating := pyStr (match h.rating with | .none => .str "no rating" | v => v),
    hotel_amenities :=
      let j := joinComma h.amenities
      if j = "" then "basic amenities" else j }

/-- Merge a successful augmentation reply into the hotel record; unmatched
or missing labels keep the prior (possibly empty) field value. -/
def applyAugmentation (h : Hotel) (s : String) : Hotel :=
  let det := parseAugDetails s
  { h with address := (detGet det "address").getD h.address,
           description := (detGet det "description").getD h.description,
           perks := (detGet det "perks").getD h.perks }

/-- One iteration of the augmentation loop: on any exception from the
generation call the pre-augmentation record is kept unchanged. -/
def augmentOne (oracle : AugmentQuery → Except String String) (cityCtx : Value)
    (h : Hotel) : Hotel :=
  match oracle (augmentQuery cityCtx h) with
  | .ok s => applyAugmentation h s
  | .error _ => h

def augmentErrNote (h : Hotel) (e : String) : String :=
  "Error during hotel augmentation for " ++ h.hotel_name ++ ": " ++ e

/-- The augmentation loop over all prepared hotels: the augmented (or, on
failure, unchanged) records in order, plus the per-failure notes. -/
def augmentHotelList (oracle : AugmentQuery → Except String String)
    (cityCtx : Value) : List Hotel → List Hotel × List String
  | [] => ([], [])
  | h :: rest =>
      let tail := augmentHotelList oracle cityCtx rest
      match oracle (augmentQuery cityCtx h) with
      | .ok s => (applyAugmentation h s :: tail.1, tail.2)
      | .error e => (h :: tail.1, augmentErrNote h e :: tail.2)

theorem augmentHotelList_fst_eq_map (oracle : AugmentQuery → Except String String)
    (cityCtx : Value) (hs : List Hotel) :
    (augmentHotelList oracle cityCtx hs).1 = hs.map (augmentOne oracle cityCtx) := by
  induction hs with
  | nil => rfl
  | cons h rest ih =>
      rw [augmentHotelList, List.map_cons]
      cases horacle : oracle (augmentQuery cityCtx h) with
      | ok s => simp only [augmentOne, horacle, ih]
      | error e => simp only [augmentOne, horacle, ih]

theorem augmentOne_amenities (oracle : AugmentQuery → Except String String)
    (cityCtx : Value) (h : Hotel) :
    (augmentOne oracle cityCtx h).amenities = h.amenities := by
  rw [augmentOne]
  cases oracle (augmentQuery cityCtx h) with
  | ok s => rfl
  | error e => rfl

theorem augmentOne_of_error {oracle : AugmentQuery → Except String String}
    {cityCtx : Value} {h : Hotel} {e : String}
    (he : oracle (augmentQuery cityCtx h) = .error e) :
    augmentOne oracle cityCtx h = h := by
  rw [augmentOne, he]

/-- Claim C7: augmentation never drops a hotel — the output list has the
same length as the pre-augmentation list — and whenever the augmentation
call for a hotel raises, the record at that position of the output is the
pre-augmentation record, unchanged. -/
theorem hotel_augmentation_never_drops (oracle : AugmentQuery → Except String String)
    (cityCtx : Value) (hs : List Hotel) :
    (augmentHotelList oracle cityCtx hs).1.length = hs.length ∧
    ∀ i (hi : i < hs.length) e,
      oracle (augmentQuery cityCtx (hs.get ⟨i, hi⟩)) = .error e →
      (augmentHotelList oracle cityCtx hs).1[i]? = some (hs.get ⟨i, hi⟩) := by
  rw [augmentHotelList_fst_eq_map]
  refine ⟨List.length_map hs (augmentOne oracle cityCtx), ?_⟩
  intro i hi e he
  rw [List.getElem?_map]
  rw [List.get_eq_getElem, List.getElem?_eq_getElem hi]
  simp only [Option.map_some']
  rw [List.get_eq_getElem] at he
  rw [augmentOne_of_error he]

def exHotelPre : Hotel :=
  { hotel_name := "The Rocks Inn", price_per_night := "$150", rating := .int 4,
    amenities := ["Wi-Fi"], address := "", description := "", perks := "" }

def exFailingAug : AugmentQuery → Except String String :=
  fun _ => .error "augmentation model unavailable"

theorem hotel_augmentation_never_drops_witness :
    (augmentHotelList exFailingAug (.str "Sydney") [exHotelPre]).1.length = 1 ∧
    (augmentHotelList exFailingAug (.str "Sydney") [exHotelPre]).1[0]?
      = some exHotelPre := by
  have h := hotel_augmentation_never_drops exFailingAug (.str "Sydney") [exHotelPre]
  exact ⟨h.1, h.2 0 (by decide) "augmentation model unavailable" rfl⟩

/-- Claim C6: every typed hotel record built by the Itinerary Compiler has
at most five amenities (the construction truncates with `[:5]`), and the
records after augmentation — which leaves amenities untouched — satisfy the
same bound, however many amenities the external search returned. -/
theorem hotel_amenities_capped (raws : List HotelDict)
    (oracle : AugmentQuery → Except String String) (cityCtx : Value) :
    (∀ h ∈ (buildHotelUpdated raws).1, h.amenities.length ≤ 5) ∧
    (∀ h ∈ (augmentHotelList oracle cityCtx (buildHotelUpdated raws).1).1,
      h.amenities.length ≤ 5) := by
  have hbuilt : ∀ h ∈ (buildHotelUpdated raws).1, h.amenities.length ≤ 5 := by
    induction raws with
    | nil => intro h hm; cases hm
    | cons hd rest ih =>
        intro h hm
        rw [buildHotelUpdated] at hm
        cases hb : buildHotelOne hd with
        | ok h0 =>
            rw [hb] at hm
            rcases List.mem_cons.mp hm with rfl | hm2
            · have : h.amenities = hd.amenities.take 5 := by
                rw [buildHotelOne] at hb
                cases hnm : hd.hotel_name with
                | none => rw [hnm] at hb; cases hb
                | some nm =>
                    rw [hnm] at hb
                    cases hpr : normalizePrice hd.price_per_night with
                    | str p =>
                        rw [hpr] at hb
                        cases hb
                        rfl
                    | int n => rw [hpr] at hb; cases hb
                    | none => rw [hpr] at hb; cases hb
              rw [this, List.length_take]
              exact min_le_left 5 hd.amenities.length
            · exact ih h hm2
        | error e =>
            rw [hb] at hm
            exact ih h hm
  refine ⟨hbuilt, ?_⟩
  intro h hm
  rw [augmentHotelList_fst_eq_map] at hm
  rcases List.mem_map.mp hm with ⟨h0, hh0, rfl⟩
  rw [augmentOne_amenities]
  exact hbuilt h0 hh0

def exRawHotelMany : HotelDict :=
  { hotel_name := some "Grand Plaza", price_per_night := .int 210, rating := .int 5,
    amenities := ["Wi-Fi", "Pool", "Spa", "Gym", "Bar", "Parking", "Laundry"] }

/-- The hotel built from `exRawHotelMany` (seven raw amenities, integer
price): amenities truncated to five, price `$`-prefixed. -/
def exBuiltHotel : Hotel :=
  { hotel_name := "Grand Plaza", price_per_night := "$210", rating := .int 5,
    amenities := ["Wi-Fi", "Pool", "Spa", "Gym", "Bar"],
    address := "", description := "", perks := "" }

theorem hotel_amenities_capped_witness : exBuiltHotel.amenities.length ≤ 5 :=
  (hotel_amenities_capped [exRawHotelMany] exFailingAug (.str "Sydney")).1
    exBuiltHotel (by decide)

/-- The shared pipeline state fields read by the Itinerary Compiler
(`TravelPlannerState` is declared in `models.py`; the shape follows the
reads in `agents.py` and the initial state built in `main.py`, where every
result field starts out as `None`). -/
structure PipelineState where
  user_info : UserInfo
  flight_results : Option FlightResultsState
  hotel_results : Option HotelToolOutput
  destination_info_results : Option DestinationInformation
  notes : List String
deriving DecidableEq, Repr

/-- `int(s)` on a string: optional surrounding whitespace, optional sign,
decimal digits; anything else is a `ValueError`.  (Python also accepts
digit-group underscores; none of the verified paths feed such strings.) -/
def parsePyInt (s : String) : Option Int :=
  match stripChars s.data with
  | [] => Option.none
  | '-' :: ds =>
      if ds ≠ [] ∧ allDigits ds = true then some (-(digitsVal ds : Int)) else Option.none
  | '+' :: ds =>
      if ds ≠ [] ∧ allDigits ds = true then some (digitsVal ds : Int) else Option.none
  | ds => if allDigits ds = true then some (digitsVal ds : Int) else Option.none

/-- `int(user_info.get('num_days', 0))` guarded by `except ValueError` with
fallback 0.  Integers pass through; strings parse or fall back.  A `None`
value would raise `TypeError`, which the source's `except ValueError` does
not catch — but per the spec's inbound request record (§6) the day-count key
is absent from the initial request and only ever written by the Info
Extraction stage as an integer, so that case is unreachable; it is mapped
to 0 here. -/
def numDaysInt (ui : UserInfo) : Int :=
  match pyGetD ui "num_days" (.int 0) with
  | .int n => n
  | .str s => (parsePyInt s).getD 0
  | .none => 0

def hotelDictsOf : Option HotelToolOutput → List HotelDict
  | some hr => hr.hotels
  | Option.none => []

/-- `hotel_results.get("place", user_info.get('hotel_city'))`, only
evaluated when at least one hotel was prepared. -/
def hotelCityCtx (hr : Option HotelToolOutput) (ui : UserInfo) : Value :=
  match hr with
  | some r =>
      match r.place with
      | some p => .str p
      | Option.none => pyGet ui "hotel_city"
  | Option.none => pyGet ui "hotel_city"

/-- Absent destination results mean "no activities available". -/
def destActivities : Option DestinationInformation → List ActivityDetail
  | some d => d.activities
  | Option.none => []

def destTravelOptions : Option DestinationInformation → List TravelOption
  | some d => d.local_travel_options
  | Option.none => []

def destResearch : Option DestinationInformation → List ResearchDetail
  | some d => d.destination_research
  | Option.none => []

/-- The dumped flight dictionaries re-parsed into `Flight` records; the
per-entry `ValidationError` guard cannot fire on records that round-trip
through the typed model. -/
def flightsForPrompt : Option FlightResultsState → List Flight
  | some fr => fr.flights
  | Option.none => []

/-- Modelled from the spec: one day of the compiled itinerary, as declared
for `ItineraryItem` in `models.py` (§3 "ItineraryDay"). -/
structure ItineraryItem where
  day : Int
  date : String
  city : String
  activities : List ActivityDetail
deriving DecidableEq, Repr

/-- Modelled from the spec: the dumped `FullTravelItinerary` /
`FinalFullTravelItinerary` document declared in `models.py` (§3
"FinalItinerary").  `notes_and_warnings` is optional so that the source's
`"notes_and_warnings" in final_itinerary_data` membership test is
meaningful. -/
structure ItineraryDoc where
  itinerary : List ItineraryItem
  flight : List Flight
  hotels : List Hotel
  travel_options : List TravelOption
  note : List ResearchDetail
  notes_and_warnings : Option (List String)
  disclaimer : Option String
  user_request_summary : Option UserInfo
deriving DecidableEq, Repr

/-- The full context handed to the structured itinerary compilation call. -/
structure CompileInput where
  user_info : UserInfo
  flights_json : List Flight
  augmented_hotel_details : List Hotel
  activities_list_json : List ActivityDetail
  travel_options_json : List TravelOption
  research_details_json : List ResearchDetail
  notes : List String
  num_days : Int
deriving DecidableEq, Repr

/-- The three shapes `itinerary_agent_node` can return under the
`final_itinerary` key: the degraded notes-only dictionary, the validated
document dump, or the unvalidated data with the validation note and
disclaimer patched in. -/
inductive FinalItineraryOut where
  | degraded (notes_and_warnings : List String) (disclaimer : String)
  | validated (doc : ItineraryDoc)
  | unvalidated (data : ItineraryDoc)
deriving DecidableEq, Repr

def compileErrorNote : LLMError → String
  | .validation m => "ValidationError during structured itinerary compilation: " ++ m
  | .other m => "An unexpected error occurred during structured itinerary compilation: " ++ m

def degradedDisclaimer : String := "Partial itinerary due to internal error."

def finalValidationDisclaimer : String :=
  "Partial itinerary generated due to final validation error."

def finalValidationNote (e : String) : String :=
  "Validation failed for final itinerary: " ++ e

/-- Notes accumulated by the time of the compilation call: incoming state
notes, then the hotel-preparation notes, then the augmentation-failure
notes (the flight re-parsing of round-tripped records adds none). -/
def notesAfterHotelPhases (st : PipelineState)
    (augO : AugmentQuery → Except String String) : List String :=
  let built := buildHotelUpdated (hotelDictsOf st.hotel_results)
  (st.notes ++ built.2)
    ++ (augmentHotelList augO (hotelCityCtx st.hotel_results st.user_info) built.1).2

def compileInputOf (st : PipelineState)
    (augO : AugmentQuery → Except String String) : CompileInput :=
  let built := buildHotelUpdated (hotelDictsOf st.hotel_results)
  { user_info := st.user_info,
    flights_json := flightsForPrompt st.flight_results,
    augmented_hotel_details :=
      (augmentHotelList augO (hotelCityCtx st.hotel_results st.user_info) built.1).1,
    activities_list_json := destActivities st.destination_info_results,
    travel_options_json := destTravelOptions st.destination_info_results,
    research_details_json := destResearch st.destination_info_results,
    notes := notesAfterHotelPhases st augO,
    num_days := numDaysInt st.user_info }

/-- `final_itinerary_data["user_request_summary"] = user_info`. -/
def attachSummary (doc : ItineraryDoc) (ui : UserInfo) : ItineraryDoc :=
  { doc with user_request_summary := some ui }

/-- `itinerary_agent_node` with its three external calls as oracles: the
per-hotel free-text augmentation, the structured compilation, and the final
re-validation `FinalFullTravelItinerary(**final_itinerary_data)`.  Every
branch returns a `final_itinerary` value. -/
def itinerary_agent_node (st : PipelineState)
    (augO : AugmentQuery → Except String String)
    (compileO : CompileInput → Except LLMError ItineraryDoc)
    (validateO : ItineraryDoc → Except String ItineraryDoc) : FinalItineraryOut :=
  match compileO (compileInputOf st augO) with
  | .error e =>
      .degraded (notesAfterHotelPhases st augO ++ [compileErrorNote e])
        degradedDisclaimer
  | .ok doc =>
      let data := attachSummary doc st.user_info
      match validateO data with
      | .ok final => .validated final
      | .error e =>
          .unvalidated { data with
            notes_and_warnings :=
              some (data.notes_and_warnings.getD [] ++ [finalValidationNote e]),
            disclaimer := some finalValidationDisclaimer }

/-- Claim C8: the Itinerary Compiler is a total function of the state and
its oracle outcomes — no exception propagates — and in each failure case it
still returns a response: a compilation failure yields the degraded
notes-plus-disclaimer document, and a final re-validation failure yields the
assembled data with the validation note appended and the disclaimer set. -/
theorem itinerary_compiler_always_returns (st : PipelineState)
    (augO : AugmentQuery → Except String String)
    (compileO : CompileInput → Except LLMError ItineraryDoc)
    (validateO : ItineraryDoc → Except String ItineraryDoc) :
    (∀ e, compileO (compileInputOf st augO) = .error e →
      itinerary_agent_node st augO compileO validateO =
        .degraded (notesAfterHotelPhases st augO ++ [compileErrorNote e])
          degradedDisclaimer) ∧
    (∀ doc e, compileO (compileInputOf st augO) = .ok doc →
      validateO (attachSummary doc st.user_info) = .error e →
      itinerary_agent_node st augO compileO validateO =
        .unvalidated { attachSummary doc st.user_info with
          notes_and_warnings :=
            some ((attachSummary doc st.user_info).notes_and_warnings.getD []
              ++ [finalValidationNote e]),
          disclaimer := some finalValidationDisclaimer }) := by
  constructor
  · intro e he
    rw [itinerary_agent_node, he]
  · intro doc e hok he
    rw [itinerary_agent_node, hok]
    simp only [he]

def exState : PipelineState :=
  { user_info := [("num_days", .int 6)], flight_results := Option.none,
    hotel_results := Option.none, destination_info_results := Option.none,
    notes := ["n1"] }

def exCompileFail : CompileInput → Except LLMError ItineraryDoc :=
  fun _ => .error (.validation "bad schema")

def exDocEmpty : ItineraryDoc :=
  { itinerary := [], flight := [], hotels := [], travel_options := [], note := [],
    notes_and_warnings := some [], disclaimer := Option.none,
    user_request_summary := Option.none }

def exCompileOk : CompileInput → Except LLMError ItineraryDoc :=
  fun _ => .ok exDocEmpty

def exValidateFail : ItineraryDoc → Except String ItineraryDoc :=
  fun _ => .error "missing field"

theorem itinerary_compiler_always_returns_witness :
    itinerary_agent_node exState exFailingAug exCompileFail exValidateFail =
      .degraded ["n1", compileErrorNote (.validation "bad schema")]
        degradedDisclaimer ∧
    itinerary_agent_node exState exFailingAug exCompileOk exValidateFail =
      .unvalidated { exDocEmpty with
        user_request_summary := some exState.user_info,
        notes_and_warnings := some [finalValidationNote "missing field"],
        disclaimer := some finalValidationDisclaimer } := by
  constructor
  · have h := (itinerary_compiler_always_returns exState exFailingAug exCompileFail
      exValidateFail).1 (.validation "bad schema") rfl
    rw [h]
    rfl
  · have h := (itinerary_compiler_always_returns exState exFailingAug exCompileOk
      exValidateFail).2 exDocEmpty "missing field" rfl rfl
    rw [h]
    rfl

/-- Claim C9: a Destination stage failure yields an explicitly absent
destination result together with a recorded note, and the Itinerary
Compiler treats an absent destination result exactly as empty
activity/travel-option/research lists — it behaves identically to a run
with an empty `DestinationInformation`, so it still produces a final
document (the node is total). -/
theorem destination_failure_degrades_gracefully (notes : List String) (e : LLMError)
    (st : PipelineState) (augO : AugmentQuery → Except String String)
    (compileO : CompileInput → Except LLMError ItineraryDoc)
    (validateO : ItineraryDoc → Except String ItineraryDoc) :
    (destination_agent_node notes (.error e)).destination_info_results = Option.none ∧
    destinationErrorNote e ∈ (destination_agent_node notes (.error e)).notes ∧
    (st.destination_info_results = Option.none →
      itinerary_agent_node st augO compileO validateO =
        itinerary_agent_node
          { st with destination_info_results := some ⟨[], [], []⟩ }
          augO compileO validateO) := by
  refine ⟨rfl, by simp [destination_agent_node], ?_⟩
  intro h
  have hinput : compileInputOf st augO =
      compileInputOf { st with destination_info_results := some ⟨[], [], []⟩ } augO := by
    simp [compileInputOf, notesAfterHotelPhases, h, destActivities, destTravelOptions,
      destResearch]
  have hnotes : notesAfterHotelPhases st augO =
      notesAfterHotelPhases { st with destination_info_results := some ⟨[], [], []⟩ }
        augO := by
    simp [notesAfterHotelPhases]
  rw [itinerary_agent_node, itinerary_agent_node, ← hinput, ← hnotes]

def exDestState : PipelineState :=
  { user_info := [("hotel_city", .str "Sydney")], flight_results := Option.none,
    hotel_results := Option.none, destination_info_results := Option.none,
    notes := [] }

def exValidateOk : ItineraryDoc → Except String ItineraryDoc :=
  fun d => .ok d

theorem destination_failure_degrades_gracefully_witness :
    (destination_agent_node [] (.error (.other "timeout"))).destination_info_results
      = Option.none ∧
    itinerary_agent_node exDestState exFailingAug exCompileOk exValidateOk =
      itinerary_agent_node
        { exDestState with destination_info_results := some ⟨[], [], []⟩ }
        exFailingAug exCompileOk exValidateOk := by
  have h := destination_failure_degrades_gracefully [] (.other "timeout") exDestState
    exFailingAug exCompileOk exValidateOk
  exact ⟨h.1, h.2.2 rfl⟩

end TravelPlanner
